import Mathlib

/-!
Shallow embedding of the tailx multi-file tail engine
(`src/reader/tailx/tailx.go`) and verification of its specification.

Times and durations are nanoseconds as `Nat` (Go `time.Time` / `time.Duration`
compared via `Before` / `Add`). Go channels and goroutine interleavings are
modelled by explicit event/observation parameters. Errors are `Option String`.
-/

namespace Tailx

/-- The four lifecycle states (`StatusInit`, `StatusRunning`, `StatusStopping`,
`StatusStopped` from `reader/config`). -/
inductive Status where
  | init
  | running
  | stopping
  | stopped
deriving DecidableEq, Repr

/-- Outcome of `os.Stat(ar.realpath)` inside `expired`: the file exists with a
modification time, it does not exist (`os.IsNotExist`), or stat failed with
some other error. -/
inductive StatResult where
  | ok (mtime : Nat)
  | notExist
  | otherErr
deriving DecidableEq, Repr

/-- `ActiveReader.expired` (tailx.go lines 350-372): returns false when the
expire duration is zero; on stat error returns true for not-exist and false
otherwise; otherwise true iff `mtime + expire < now` and `inactive > 0`. -/
def expired (expire : Nat) (statRes : StatResult) (now : Nat) (inactive : Nat) : Bool :=
  if expire = 0 then
    false
  else
    match statRes with
    | .notExist => true
    | .otherErr => false
    | .ok mtime => decide (mtime + expire < now) && decide (0 < inactive)

/-- The error value returned by `ar.br.ReadLine()` in the reading loop:
nil, `io.EOF`, `os.ErrClosed`, or any other error. -/
inductive ReadErr where
  | ok
  | eof
  | closed
  | other (msg : String)
deriving DecidableEq, Repr

/-- The per-follower mutable fields touched by the fetch phase of `Run` and by
`expired`: `emptyLineCnt`, `inactive` and `status`. -/
structure FollowerState where
  emptyLineCnt : Nat
  inactive : Nat
  status : Status
deriving DecidableEq, Repr

/-- What one iteration of the fetch phase of `ActiveReader.Run`
(tailx.go lines 217-251) decides to do next. -/
inductive FetchOutcome where
  | errorStop (msg : String)
  | inactiveStopEOF
  | inactiveStopEmpty
  | sleepRetry
  | deliver (line : String)
deriving DecidableEq, Repr

/-- One iteration of the fetch phase of `ActiveReader.Run` when `readcache` is
empty (tailx.go lines 217-251): a non-EOF non-closed error stops the follower
with an error; an empty line increments `emptyLineCnt`, then EOF sets
`inactive` and stops, a count above 3 sets `inactive` and stops, and otherwise
the loop sleeps one second and retries; a non-empty line proceeds to the
deliver phase. -/
def fetchStep (st : FollowerState) (line : String) (err : ReadErr) :
    FollowerState × FetchOutcome :=
  match err with
  | .other msg => (st, .errorStop msg)
  | _ =>
    if line = "" then
      let cnt := st.emptyLineCnt + 1
      if err = .eof then
        ({ st with emptyLineCnt := cnt, inactive := 1 }, .inactiveStopEOF)
      else if cnt > 3 then
        ({ st with emptyLineCnt := cnt, inactive := 1 }, .inactiveStopEmpty)
      else
        ({ st with emptyLineCnt := cnt }, .sleepRetry)
    else
      (st, .deliver line)

/-- The whence strings from `reader/config`. -/
def WhenceOldest : String := "oldest"

/-- The whence strings from `reader/config`. -/
def WhenceNewest : String := "newest"

/-- The whence computation of `NewActiveReader` (tailx.go lines 103-106):
`isNewFile := meta.IsStatisticFileExist() || notFirstTime`; when `isNewFile`
holds and the per-file submeta does not exist yet, whence is overridden to
`oldest`; otherwise the configured whence is passed through unchanged. -/
def effectiveWhence (whence : String) (statFileExists notFirstTime subMetaNotExist : Bool) :
    String :=
  let isNewFile := statFileExists || notFirstTime
  if isNewFile && subMetaNotExist then WhenceOldest else whence

/-- The fields `NewActiveReader` initialises on the returned `ActiveReader`
(tailx.go lines 119-131): `inactive: 1`, `emptyLineCnt: 0`,
`status: StatusInit`. -/
def newActiveReaderState : FollowerState :=
  { emptyLineCnt := 0, inactive := 1, status := .init }

/-- Result of `ActiveReader.sendError` (tailx.go lines 316-330): whether the
send on `errChan` was performed, and the final value of the local `err`. -/
structure SendErrorResult where
  sent : Bool
  localErr : Option String
deriving DecidableEq, Repr

/-- `ActiveReader.sendError` (tailx.go lines 316-330): a nil error returns at
once; when the follower is stopping or stopped the local `err` is rebound to a
wrapped message and the function returns without sending; otherwise the error
is sent on `errChan`. -/
def sendError (stopping stopped : Bool) (err : Option String) : SendErrorResult :=
  match err with
  | none => { sent := false, localErr := none }
  | some e =>
    if stopping || stopped then
      { sent := false, localErr := some ("sendError " ++ e ++ " failed as is closed") }
    else
      { sent := true, localErr := some e }

/-- The wait loop shared by `Stop` (tailx.go lines 180-190): starting from
poll index `i`, poll the status (observation `f i`) until it is `stopped` or
the fuel runs out; returns the poll index at exit (equals the number of
one-second sleeps performed) and the status last observed. The loop in `Stop`
runs with fuel 3 (`cnt > 3` breaks after three sleeps). -/
def stopWaitGo (f : Nat → Status) (i : Nat) : Nat → Nat × Status
  | 0 => (i, f i)
  | fuel + 1 => if f i = .stopped then (i, f i) else stopWaitGo f (i + 1) fuel

/-- Result of `ActiveReader.Stop`: error returned or not, number of one-second
sleeps spent waiting, and the follower status when `Stop` returns (`Stop`
itself stores nothing after its CAS; the status at return is the environment's
last observed value). -/
structure StopResult where
  err : Bool
  sleeps : Nat
  finalStatus : Status
deriving DecidableEq, Repr

/-- `ActiveReader.Stop` (tailx.go lines 162-193). `entry` is the status read at
entry; `f k` is the status observed at the k-th poll of the wait loop (the
reading goroutine may concurrently advance it to `stopped`). A `stopped` entry
returns nil at once; an entry that is neither `running` (CAS fails) nor
`stopping` returns an error; otherwise `Stop` waits for `stopped` with at most
three one-second sleeps, then returns nil without writing the status. -/
def Stop (entry : Status) (f : Nat → Status) : StopResult :=
  if entry = .stopped then
    { err := false, sleeps := 0, finalStatus := .stopped }
  else if entry ≠ .running ∧ entry ≠ .stopping then
    { err := true, sleeps := 0, finalStatus := entry }
  else
    let w := stopWaitGo f 0 3
    { err := false, sleeps := w.1, finalStatus := w.2 }

/-- `ActiveReader.Close` (tailx.go lines 295-308): first unconditionally close
the underlying buffered reader, keeping its error as `brCloseErr`; then call
`Stop`; return `brCloseErr` when `Stop` returned an error and nil otherwise. -/
def Close (entry : Status) (f : Nat → Status) (brCloseErr : Option String) : Option String :=
  if (Stop entry f).err then brCloseErr else none

/-- Modelled from the spec: `IsSubmetaExpireValid` lives in
`utils/models`, which is not under `src/`; per the spec, the check must demand
`submeta_expire == 0 OR submeta_expire ≥ expire`, and `NewReader` uses the
predicate as `return error if true`, so the predicate holds exactly when
`submeta_expire` is nonzero and less than `expire`. Durations in
nanoseconds. -/
def IsSubmetaExpireValid (submetaExpire expire : Nat) : Bool :=
  decide (0 < submetaExpire) && decide (submetaExpire < expire)

/-- The submeta-expire configuration check of `NewReader` (tailx.go lines
397-400): construction fails with a configuration error exactly when
`IsSubmetaExpireValid submetaExpire expire` is true. -/
def newReaderSubmetaCheck (submetaExpire expire : Nat) : Option String :=
  if IsSubmetaExpireValid submetaExpire expire then
    some "submeta_expire valus is less than expire"
  else
    none

/-- The event that wins the three-way select in `Reader.ReadLine`
(tailx.go lines 744-757): a message from `msgChan` (carrying the line and the
follower's origin path), an error from `errChan`, or the one-second timer. -/
inductive ReadEvent where
  | msg (line originPath : String)
  | errEvent (e : String)
  | timeout
deriving DecidableEq, Repr

/-- What `Reader.ReadLine` returns and the value of `currentFile` after the
call. -/
structure ReadLineResult where
  line : String
  err : Option String
  currentFile : String
deriving DecidableEq, Repr

/-- `Reader.ReadLine` (tailx.go lines 744-757): on a message, set
`currentFile` to the message's logpath and return the line with a nil error;
on an error, return it with an empty line, `currentFile` untouched; on the
one-second timeout, return an empty line and nil error. -/
def ReadLine (currentFile : String) (ev : ReadEvent) : ReadLineResult :=
  match ev with
  | .msg line originPath => { line := line, err := none, currentFile := originPath }
  | .errEvent e => { line := "", err := some e, currentFile := currentFile }
  | .timeout => { line := "", err := none, currentFile := currentFile }

/-- The engine state touched by one `statLogPath` pass: the follower map keys
(`fileReaders`, as the list of registered real paths), the restored line cache
(`cacheMap`), the configuration, and the lifecycle flags consulted before
registering. -/
structure EngineState where
  fileReaders : List String
  cacheMap : List (String × String)
  maxOpenFiles : Nat
  expire : Nat
  whence : String
  notFirstTime : Bool
  stoppingOrStopped : Bool
deriving DecidableEq, Repr

/-- `r.cacheMap[rp]`: Go map lookup with the empty string as zero value. -/
def cacheLookup (m : List (String × String)) (key : String) : String :=
  match m.find? (fun kv => kv.1 = key) with
  | some kv => kv.2
  | none => ""

/-- One glob match as `statLogPath` sees it: the matched path, whether the
ignore pattern matched it, the outcome of `GetRealPath` (resolved real path,
directory flag, modification time, or a stat error), and whether
`NewActiveReader` failed for it. -/
structure MatchInfo where
  path : String
  ignored : Bool
  statErr : Bool
  isDir : Bool
  realPath : String
  mtime : Nat
  newReaderErr : Bool
deriving DecidableEq, Repr

/-- The per-match body of the reconcile loop in `statLogPath` (tailx.go lines
571-659): skip ignored matches, stat errors and directories; skip real paths
already in `fileReaders` (possibly restarting them, which does not change the
map); skip new files whose cache line is empty and whose mtime is already
older than `now - expire` (when `expire > 0`); skip when `NewActiveReader`
fails; finally register the new follower under its real path unless the engine
is stopping or stopped. -/
def processMatch (now : Nat) (st : EngineState) (m : MatchInfo) : EngineState :=
  if m.ignored then st
  else if m.statErr then st
  else if m.isDir then st
  else if st.fileReaders.contains m.realPath then st
  else
    if cacheLookup st.cacheMap m.realPath = "" ∧ 0 < st.expire ∧ m.mtime + st.expire < now then st
    else if m.newReaderErr then st
    else if st.stoppingOrStopped then st
    else { st with fileReaders := m.realPath :: st.fileReaders }

/-- `Reader.statLogPath` (tailx.go lines 530-670): when the follower map
already holds at least `maxOpenFiles` entries the pass returns at once without
stat-ing new logs; otherwise every glob match is processed in order by
`processMatch` (the cap is not re-checked inside the loop) and
`notFirstTime` is set afterwards. -/
def statLogPath (now : Nat) (st : EngineState) (ms : List MatchInfo) : EngineState :=
  if st.fileReaders.length ≥ st.maxOpenFiles then st
  else
    let st' := ms.foldl (processMatch now) st
    { st' with notFirstTime := true }

/-! ## Helper lemmas -/

/-- Each iteration of the reconcile loop registers at most one new path. -/
lemma processMatch_length_le (now : Nat) (st : EngineState) (m : MatchInfo) :
    (processMatch now st m).fileReaders.length ≤ st.fileReaders.length + 1 := by
  unfold processMatch
  split_ifs <;> simp

/-- A fold of the reconcile loop grows the follower list by at most the number
of matches. -/
lemma foldl_processMatch_length_le (now : Nat) (ms : List MatchInfo) :
    ∀ st : EngineState,
      (ms.foldl (processMatch now) st).fileReaders.length ≤
        st.fileReaders.length + ms.length := by
  induction ms with
  | nil => intro st; simp
  | cons m tl ih =>
    intro st
    have h1 := processMatch_length_le now st m
    have h2 := ih (processMatch now st m)
    simp only [List.foldl_cons, List.length_cons]
    omega

/-- The wait loop of `Stop` sleeps at most `fuel` extra seconds past its start
index and reports exactly the status observed at its final poll. -/
lemma stopWaitGo_spec (f : Nat → Status) :
    ∀ (fuel i : Nat),
      (stopWaitGo f i fuel).1 ≤ i + fuel ∧
        (stopWaitGo f i fuel).2 = f (stopWaitGo f i fuel).1 := by
  intro fuel
  induction fuel with
  | zero => intro i; simp [stopWaitGo]
  | succ n ih =>
    intro i
    by_cases h : f i = .stopped
    · simp [stopWaitGo, h]
    · have hrec := ih (i + 1)
      simp only [stopWaitGo, if_neg h]
      exact ⟨by omega, hrec.2⟩

/-- `Stop` returns an error exactly when the entry status is `Init`: a
`stopped` entry returns nil at once, and from `running` or `stopping` the wait
branch always returns nil. -/
lemma Stop_err_iff (entry : Status) (f : Nat → Status) :
    (Stop entry f).err = true ↔ entry = .init := by
  cases entry <;> simp [Stop]

/-! ## Claims -/

/-- C1 (counterexample): `statLogPath` checks the `maxOpenFiles` cap only once
at the start of the pass, so starting at `maxOpenFiles - 1 = 1` follower with
two eligible new matches, both are registered: the follower map grows to 3
entries, exceeding the cap of 2 and exceeding the claimed at-most-one new
registration. -/
theorem C1_cap_counterexample :
    (statLogPath 0
        { fileReaders := ["a"], cacheMap := [], maxOpenFiles := 2, expire := 0,
          whence := "oldest", notFirstTime := true, stoppingOrStopped := false }
        [{ path := "b", ignored := false, statErr := false, isDir := false,
           realPath := "b", mtime := 0, newReaderErr := false },
         { path := "c", ignored := false, statErr := false, isDir := false,
           realPath := "c", mtime := 0, newReaderErr := false }]).fileReaders.length = 3 ∧
      (2 : Nat) < 3 := by
  decide

/-- C1 (amended): the cap is enforced only at the entry of a `statLogPath`
pass: a pass that starts with at least `maxOpenFiles` followers registers
nothing and leaves the state unchanged, and any pass grows the follower map by
at most the number of glob matches; within a pass that starts below the cap
the cap is not re-checked, so the map may end above `maxOpenFiles`. -/
theorem C1_statLogPath_cap (now : Nat) (st : EngineState) (ms : List MatchInfo) :
    (st.maxOpenFiles ≤ st.fileReaders.length → statLogPath now st ms = st) ∧
      (statLogPath now st ms).fileReaders.length ≤ st.fileReaders.length + ms.length := by
  constructor
  · intro h
    simp [statLogPath, h]
  · unfold statLogPath
    split
    · simp
    · have := foldl_processMatch_length_le now ms st
      simpa using this

/-- C1 (witness for the amended theorem). -/
theorem C1_statLogPath_cap_witness :
    statLogPath 0
        { fileReaders := ["a"], cacheMap := [], maxOpenFiles := 1, expire := 0,
          whence := "oldest", notFirstTime := true, stoppingOrStopped := false }
        [{ path := "b", ignored := false, statErr := false, isDir := false,
           realPath := "b", mtime := 0, newReaderErr := false }] =
      { fileReaders := ["a"], cacheMap := [], maxOpenFiles := 1, expire := 0,
        whence := "oldest", notFirstTime := true, stoppingOrStopped := false } :=
  (C1_statLogPath_cap 0
      { fileReaders := ["a"], cacheMap := [], maxOpenFiles := 1, expire := 0,
        whence := "oldest", notFirstTime := true, stoppingOrStopped := false }
      [{ path := "b", ignored := false, statErr := false, isDir := false,
         realPath := "b", mtime := 0, newReaderErr := false }]).1 (by decide)

/-- C2 (counterexample): with two consecutive empty reads already counted, a
third empty read with a nil error brings `emptyLineCnt` to 3, yet the loop
only sleeps and retries — it does not set `inactive` or stop, contradicting
the claim that the follower self-stops as soon as the count reaches 3. -/
theorem C2_emptyLine_counterexample :
    fetchStep { emptyLineCnt := 2, inactive := 0, status := .running } "" .ok =
      ({ emptyLineCnt := 3, inactive := 0, status := .running }, .sleepRetry) := by
  decide

/-- C2 (amended): on every empty read with a nil (non-EOF, non-closed) error
the counter is incremented, and the follower sets `inactive := 1` and
self-stops only when the incremented counter exceeds 3 — i.e. on the fourth
consecutive empty read; for three or fewer it sleeps about one second and
retries. -/
theorem C2_fetch_empty_step (c i : Nat) (s : Status) :
    fetchStep { emptyLineCnt := c, inactive := i, status := s } "" .ok =
      (if c + 1 > 3 then
        ({ emptyLineCnt := c + 1, inactive := 1, status := s }, .inactiveStopEmpty)
      else
        ({ emptyLineCnt := c + 1, inactive := i, status := s }, .sleepRetry)) := by
  simp only [fetchStep]
  norm_num
  intro hcontra
  exact absurd hcontra (by decide)

/-- C3: `expired` holds exactly when the expire duration is positive and
either the stat reported not-exist, or the file exists with
`mtime + expire < now` and the follower is inactive; any other stat error
yields false. Stated for the inactive flag's actual range {0, 1}. -/
theorem C3_expired_iff (e : Nat) (s : StatResult) (now inact : Nat) (h : inact ≤ 1) :
    expired e s now inact = true ↔
      0 < e ∧ (s = .notExist ∨ ∃ m, s = .ok m ∧ m + e < now ∧ inact = 1) := by
  cases s <;> by_cases he : e = 0 <;> simp [expired, he] <;> omega

/-- C3 (witness). -/
theorem C3_expired_iff_witness :
    expired 5 (.ok 1) 10 1 = true ↔
      0 < 5 ∧ (StatResult.ok 1 = .notExist ∨
        ∃ m, StatResult.ok 1 = .ok m ∧ m + 5 < 10 ∧ 1 = 1) :=
  C3_expired_iff 5 (.ok 1) 10 1 (by decide)

/-- C4: for a brand-new path (the per-file submeta does not exist yet), the
configured whence passes through verbatim exactly when no statistics file
exists and this is the engine's first discovery pass; otherwise (statistics
exist or `notFirstTime`) the effective whence is forced to `oldest`. -/
theorem C4_whence_rule (w : String) (se nf : Bool) :
    ((se || nf) = false → effectiveWhence w se nf true = w) ∧
      ((se || nf) = true → effectiveWhence w se nf true = WhenceOldest) ∧
      (w ≠ WhenceOldest → (effectiveWhence w se nf true = w ↔ (se || nf) = false)) := by
  cases se <;> cases nf <;>
    simp [effectiveWhence] <;>
    intro hw <;> exact fun hweq => absurd hweq.symm hw

/-- C4 (witness). -/
theorem C4_whence_rule_witness :
    effectiveWhence WhenceNewest false false true = WhenceNewest ∧
      effectiveWhence WhenceNewest true false true = WhenceOldest :=
  ⟨(C4_whence_rule WhenceNewest false false).1 rfl,
    (C4_whence_rule WhenceNewest true false).2.1 rfl⟩

/-- C5 (counterexample): there is no input at all for which a stopping or
stopped follower still sends on the error channel — `sendError` returns early
after wrapping the error into the local variable, so the claimed residual send
never happens. -/
theorem C5_sendError_counterexample :
    ¬ ∃ (stopping stopped : Bool) (e : String),
        (stopping || stopped) = true ∧
          (sendError stopping stopped (some e)).sent = true := by
  rintro ⟨stopping, stopped, e, hss, hsent⟩
  simp [sendError, hss] at hsent

/-- C5 (amended): after detecting that the follower is stopping or stopped,
`sendError` assigns the wrapped message to the local `err` and returns early,
so the send on the error channel is not performed. -/
theorem C5_sendError_early_return (stopping stopped : Bool) (e : String)
    (h : stopping = true ∨ stopped = true) :
    (sendError stopping stopped (some e)).sent = false ∧
      (sendError stopping stopped (some e)).localErr =
        some ("sendError " ++ e ++ " failed as is closed") := by
  rcases h with h | h <;> subst h <;> simp [sendError]

/-- C5 (witness for the amended theorem). -/
theorem C5_sendError_early_return_witness :
    (sendError true false (some "boom")).sent = false ∧
      (sendError true false (some "boom")).localErr =
        some ("sendError " ++ "boom" ++ " failed as is closed") :=
  C5_sendError_early_return true false "boom" (Or.inl rfl)

/-- C6 (counterexample): calling `Stop` on a follower in `stopping` whose
status never advances waits three seconds and then returns with the status
still `stopping` — `Stop` does not force-advance it to `stopped`. -/
theorem C6_stop_counterexample :
    Stop .stopping (fun _ => .stopping) =
      { err := false, sleeps := 3, finalStatus := .stopping } ∧
      Status.stopping ≠ Status.stopped := by
  exact ⟨rfl, by decide⟩

/-- C6 (amended): `Stop` from `stopping` bounds its wait at three one-second
sleeps and returns nil, but performs no write to the status after the wait:
the status at return is exactly whatever was last observed, so on timeout it
stays not-`stopped` (the force-advance to `stopped` exists only in `Start`). -/
theorem C6_stop_bounded_no_force (f : Nat → Status) :
    (Stop .stopping f).sleeps ≤ 3 ∧ (Stop .stopping f).err = false ∧
      (Stop .stopping f).finalStatus = f (Stop .stopping f).sleeps := by
  have h := stopWaitGo_spec f 3 0
  have hstop : Stop .stopping f =
      { err := false, sleeps := (stopWaitGo f 0 3).1,
        finalStatus := (stopWaitGo f 0 3).2 } := by
    simp [Stop]
  rw [hstop]
  exact ⟨by simpa using h.1, rfl, h.2⟩

/-- C7: `ReadLine` races the message channel, the error channel and the
one-second timer: a message sets `currentFile` to its origin path and returns
the line with nil error; an error returns it with an empty line leaving
`currentFile` unchanged; the timeout returns an empty line and nil error. -/
theorem C7_ReadLine_cases (cf line path e : String) :
    ReadLine cf (.msg line path) = { line := line, err := none, currentFile := path } ∧
      ReadLine cf (.errEvent e) = { line := "", err := some e, currentFile := cf } ∧
      ReadLine cf .timeout = { line := "", err := none, currentFile := cf } :=
  ⟨rfl, rfl, rfl⟩

/-- C8: the submeta-expire check of `NewReader` rejects the configuration
exactly when `submetaExpire` is nonzero and less than `expire`; equivalently
it accepts exactly when `submetaExpire = 0` or `submetaExpire ≥ expire`. -/
theorem C8_submeta_expire_check (sm e : Nat) :
    (newReaderSubmetaCheck sm e ≠ none ↔ (0 < sm ∧ sm < e)) ∧
      (newReaderSubmetaCheck sm e = none ↔ (sm = 0 ∨ e ≤ sm)) := by
  by_cases h1 : 0 < sm <;> by_cases h2 : sm < e <;>
    simp [newReaderSubmetaCheck, IsSubmetaExpireValid, h1, h2] <;> omega

/-- C9: `Close` closes the buffered reader first and keeps its error, but
returns that error only when the subsequent `Stop` errors — which happens
exactly when the follower status is `init`; whenever `Stop` succeeds
(including the already-`stopped` case) `Close` returns nil even if the
buffered reader's close failed. -/
theorem C9_Close_error_propagation (entry : Status) (f : Nat → Status)
    (brCloseErr : Option String) :
    ((Stop entry f).err = false → Close entry f brCloseErr = none) ∧
      ((Stop entry f).err = true → Close entry f brCloseErr = brCloseErr) ∧
      ((Stop entry f).err = true ↔ entry = .init) := by
  refine ⟨?_, ?_, Stop_err_iff entry f⟩ <;> intro h <;> simp [Close, h]

/-- C9 (witness). -/
theorem C9_Close_error_propagation_witness :
    Close .stopped (fun _ => .stopped) (some "close failed") = none :=
  (C9_Close_error_propagation .stopped (fun _ => .stopped) (some "close failed")).1
    (by decide)

/-- C10: a freshly constructed follower starts with `inactive = 1`,
`emptyLineCnt = 0` and status `init`; consequently, with a positive expire
duration and a file mtime older than `now - expire`, `expired` already returns
true for it before any read has happened. -/
theorem C10_new_follower_expiry_eligible :
    newActiveReaderState.inactive = 1 ∧
      newActiveReaderState.emptyLineCnt = 0 ∧
      newActiveReaderState.status = .init ∧
      ∀ e m now, 0 < e → m + e < now →
        expired e (.ok m) now newActiveReaderState.inactive = true := by
  refine ⟨rfl, rfl, rfl, ?_⟩
  intro e m now he hm
  simp [expired, newActiveReaderState]
  omega

/-- C10 (witness). -/
theorem C10_new_follower_expiry_eligible_witness :
    expired 5 (.ok 1) 10 newActiveReaderState.inactive = true :=
  C10_new_follower_expiry_eligible.2.2.2 5 1 10 (by decide) (by decide)

end Tailx
